import Mathlib

/-!
# hmh_scaffold: the SDL3 window skeleton of `src/main.c`

A shallow embedding of `draw`, `handle_event`, `init_ui`, `quit` and `main`.

* The program talks to the SDL3 library only through calls.  Every call that
  has an outward effect is recorded, in order, in `World.trace`.
* What the library answers is not decided by the program: the header
  constants the source names and the outcome of the fallible calls are the
  fields of the parameter `L : SDL`.
* `SDL_PollEvent` is an input stream.  The events it hands out are given as a
  list of drain passes; a pass is the run of events returned between two
  `false` answers of the poll.
* Floating point: the only float values the program computes and uses are
  `(double)(ticks % 2)` and the header constant `SDL_ALPHA_OPAQUE_FLOAT`; they
  are kept symbolic in `CFloat`.  The local `now` of `draw` is never read.
-/

namespace Hmh

/-! ## Data model -/

/-- One variadic argument handed to `SDL_Log` after the format string. -/
inductive LogArg
  | d (v : Int)
  | s (v : String)
  deriving DecidableEq, Repr

/-- The float values that reach `SDL_SetRenderDrawColorFloat`: the conversion
of an unsigned integer, or the header constant for full opacity. -/
inductive CFloat
  | ofUint64 (n : Nat)
  | SDL_ALPHA_OPAQUE_FLOAT
  deriving DecidableEq, Repr

/-- The library calls of `src/main.c` that act on the outside world, with the
arguments the program passes.  Pointers are `Option Nat`, `none` being NULL. -/
inductive Effect
  | SDL_SetAppMetadata (appname appversion appidentifier : String)
  | SDL_Init (flags : Nat)
  | SDL_CreateWindowAndRenderer (title : String) (width height : Int) (flags : Nat)
  | SDL_Log (fmt : String) (args : List LogArg)
  | SDL_SetRenderDrawColorFloat (renderer : Option Nat) (r g b a : CFloat)
  | SDL_RenderClear (renderer : Option Nat)
  | SDL_RenderPresent (renderer : Option Nat)
  | SDL_DestroyWindow (window : Option Nat)
  | SDL_Quit
  deriving DecidableEq, Repr

/-- A log line. -/
def Effect.isLog : Effect → Bool
  | .SDL_Log _ _ => true
  | _ => false

/-- A call that belongs to a render cycle: colour setting, clear or present. -/
def Effect.isRender : Effect → Bool
  | .SDL_SetRenderDrawColorFloat _ _ _ _ _ => true
  | .SDL_RenderClear _ => true
  | .SDL_RenderPresent _ => true
  | _ => false

/-- The SDL3 library as the program sees it.  The first group are the values
of the header constants that `src/main.c` names (the header is not part of the
repository); the `switch` of `handle_event` and the test in `main` only need
the five event kinds to be pairwise different.  The second group are the
answers of the library that the program cannot influence. -/
structure SDL where
  SDL_EVENT_QUIT : Nat
  SDL_EVENT_WINDOW_RESIZED : Nat
  SDL_EVENT_KEY_DOWN : Nat
  SDL_EVENT_KEY_UP : Nat
  SDL_EVENT_WINDOW_EXPOSED : Nat
  SDL_INIT_VIDEO : Nat
  SDL_WINDOW_RESIZABLE : Nat
  kinds_nodup : [SDL_EVENT_QUIT, SDL_EVENT_WINDOW_RESIZED, SDL_EVENT_KEY_DOWN,
    SDL_EVENT_KEY_UP, SDL_EVENT_WINDOW_EXPOSED].Nodup
  init_ok : Bool
  create_ok : Bool
  init_error : String
  create_error : String
  new_window : Nat
  new_renderer : Nat
  ticks : Nat → Nat

/-- The `window` member of the `SDL_Event` union, as far as the program reads it. -/
structure SDL_WindowEvent where
  data1 : Int
  data2 : Int
  deriving DecidableEq, Repr

/-- The `key` member of the `SDL_Event` union (the payload of a keyboard event). -/
structure SDL_KeyboardEvent where
  which : Nat
  scancode : Nat
  key : Nat
  mod : Nat
  raw : Nat
  down : Bool
  is_repeat : Bool
  deriving DecidableEq, Repr

/-- An `SDL_Event`: the common `type` field and the two union members that
matter here, each given as the view one gets by reading through it. -/
structure SDL_Event where
  type : Nat
  window : SDL_WindowEvent
  key : SDL_KeyboardEvent
  deriving DecidableEq, Repr

/-- How the two members overlay in the SDL3 header: after the shared fields
`type`, `reserved`, `timestamp`, `windowID`, the next two 32-bit words are
`data1`, `data2` in the window member and `which`, `scancode` in the keyboard
member. -/
def SDL_Event.key_overlay (event : SDL_Event) : Prop :=
  event.window.data1 = (event.key.which : Int) ∧ event.window.data2 = (event.key.scancode : Int)

instance (event : SDL_Event) : Decidable event.key_overlay := by
  unfold SDL_Event.key_overlay; infer_instance

/-- Process and library state.  `window` and `renderer` are the two static
globals of `src/main.c`; the other fields are the state of the library. -/
structure World where
  window : Option Nat
  renderer : Option Nat
  sdl_up : Bool
  window_live : Bool
  renderer_live : Bool
  last_error : String
  tick_calls : Nat
  trace : List Effect
  deriving DecidableEq, Repr

/-- Process start: both globals are NULL (lines 4-5), nothing has been called. -/
def World.start : World :=
  { window := none, renderer := none, sdl_up := false, window_live := false,
    renderer_live := false, last_error := "", tick_calls := 0, trace := [] }

/-- Record one call. -/
def World.emit (w : World) (e : Effect) : World :=
  { w with trace := w.trace ++ [e] }

/-- The effects recorded between `w` and a later state `w2`. -/
def emitted (w w2 : World) : List Effect :=
  w2.trace.drop w.trace.length

/-! ## The library calls -/

/-- `SDL_SetAppMetadata`: only recorded. -/
def SDL_SetAppMetadata (appname appversion appidentifier : String) (w : World) : World :=
  w.emit (.SDL_SetAppMetadata appname appversion appidentifier)

/-- `SDL_Init`: on success the library is up; on failure it is not, and the
error string is set. -/
def SDL_Init (L : SDL) (flags : Nat) (w : World) : Bool × World :=
  let w := w.emit (.SDL_Init flags)
  if L.init_ok then (true, { w with sdl_up := true })
  else (false, { w with last_error := L.init_error })

/-- Modelled from the spec: the library call `SDL_CreateWindowAndRenderer`
(the library is not part of the repository).  The spec has the render surface
"created alongside the Window": on success both out-parameters receive a live
object, on failure both are NULL and nothing was created. -/
def SDL_CreateWindowAndRenderer (L : SDL) (title : String) (width height : Int) (flags : Nat)
    (w : World) : Bool × World :=
  let w := w.emit (.SDL_CreateWindowAndRenderer title width height flags)
  if L.create_ok then
    (true, { w with window := some L.new_window, renderer := some L.new_renderer,
                    window_live := true, renderer_live := true })
  else
    (false, { w with window := none, renderer := none, last_error := L.create_error })

/-- `SDL_GetError`: the last error string. -/
def SDL_GetError (w : World) : String :=
  w.last_error

/-- `SDL_Log`: one log line, the format and its arguments. -/
def SDL_Log (fmt : String) (args : List LogArg) (w : World) : World :=
  w.emit (.SDL_Log fmt args)

/-- `SDL_GetTicks`: a `Uint64`; the library decides the value of each call. -/
def SDL_GetTicks (L : SDL) (w : World) : Nat × World :=
  (L.ticks w.tick_calls % 2 ^ 64, { w with tick_calls := w.tick_calls + 1 })

/-- `SDL_SetRenderDrawColorFloat`: only recorded. -/
def SDL_SetRenderDrawColorFloat (renderer : Option Nat) (r g b a : CFloat) (w : World) : World :=
  w.emit (.SDL_SetRenderDrawColorFloat renderer r g b a)

/-- `SDL_RenderClear`: only recorded. -/
def SDL_RenderClear (renderer : Option Nat) (w : World) : World :=
  w.emit (.SDL_RenderClear renderer)

/-- `SDL_RenderPresent`: only recorded. -/
def SDL_RenderPresent (renderer : Option Nat) (w : World) : World :=
  w.emit (.SDL_RenderPresent renderer)

/-- Modelled from the spec: the library call `SDL_DestroyWindow` (the library
is not part of the repository).  The spec has the surface "destroyed
implicitly with" its owning window.  A NULL argument destroys nothing. -/
def SDL_DestroyWindow (window : Option Nat) (w : World) : World :=
  let w := w.emit (.SDL_DestroyWindow window)
  match window with
  | none => w
  | some _ => { w with window_live := false, renderer_live := false }

/-- `SDL_Quit`: library-wide shutdown; whatever was still alive is gone. -/
def SDL_Quit (w : World) : World :=
  { w.emit .SDL_Quit with sdl_up := false, window_live := false, renderer_live := false }

/-! ## The program (`src/main.c`) -/

/-- Lines 7-13.  `SDL_GetTicks` is called twice; the first reading only feeds
the unused local `now`, the second one gives `col = (double)(ticks % 2)`. -/
def draw (L : SDL) (w : World) : World :=
  let now := SDL_GetTicks L w
  let t := SDL_GetTicks L now.2
  let col := CFloat.ofUint64 (t.1 % 2)
  let w := t.2
  let w := SDL_SetRenderDrawColorFloat w.renderer col col col CFloat.SDL_ALPHA_OPAQUE_FLOAT w
  let w := SDL_RenderClear w.renderer w
  SDL_RenderPresent w.renderer w

/-- Lines 16-35: the `switch` on `event->type`.  Always returns `true`. -/
def handle_event (L : SDL) (event : SDL_Event) (w : World) : Bool × World :=
  if event.type = L.SDL_EVENT_WINDOW_RESIZED then
    (true, SDL_Log "resize (%d, %d)" [.d event.window.data1, .d event.window.data2] w)
  else if event.type = L.SDL_EVENT_KEY_DOWN then
    (true, SDL_Log "key down: %d" [.d event.window.data2] w)
  else if event.type = L.SDL_EVENT_KEY_UP then
    (true, SDL_Log "key up: %d" [.d event.window.data2] w)
  else if event.type = L.SDL_EVENT_WINDOW_EXPOSED then
    (true, draw L w)
  else
    (true, SDL_Log "unhandled event: %d" [.d event.type] w)

/-- Lines 37-49. -/
def init_ui (L : SDL) (w : World) : Bool × World :=
  let w := SDL_SetAppMetadata "Hero" "1.0" "supply.same.handmade" w
  let r := SDL_Init L L.SDL_INIT_VIDEO w
  if !r.1 then
    (false, SDL_Log "Couldn\x27t initialize SDL: %s" [.s (SDL_GetError r.2)] r.2)
  else
    let c := SDL_CreateWindowAndRenderer L "Hero" 640 480 L.SDL_WINDOW_RESIZABLE r.2
    if !c.1 then
      (false, SDL_Log "Couldn\x27t create window/renderer: %s" [.s (SDL_GetError c.2)] c.2)
    else
      (true, c.2)

/-- Lines 51-54. -/
def quit (w : World) : World :=
  SDL_Quit (SDL_DestroyWindow w.window w)

/-- Lines 65-68: the body of the inner `while`, for one polled event. -/
def loop_body (L : SDL) (event : SDL_Event) (s : Bool × World) : Bool × World :=
  let done := if event.type = L.SDL_EVENT_QUIT then true else s.1
  (done, (handle_event L event s.2).2)

/-- Line 64: the inner `while (SDL_PollEvent(&event))`, run over the events the
poll hands out before it answers `false`. -/
def poll_loop (L : SDL) : List SDL_Event → Bool × World → Bool × World
  | [], s => s
  | event :: rest, s => poll_loop L rest (loop_body L event s)

/-- Where the outer loop stands once the supplied passes are used up or the
loop has left: `exited` carries the passes that were never polled; `running`
means `done` is still false and the loop is about to poll again. -/
inductive Loop
  | exited (pending : List (List SDL_Event)) (w : World)
  | running (w : World)
  deriving DecidableEq, Repr

/-- Lines 62-70: the outer `while (!done)`. -/
def main_loop (L : SDL) : List (List SDL_Event) → Bool × World → Loop
  | [], s => if s.1 then .exited [] s.2 else .running s.2
  | pass :: later, s =>
      if s.1 then .exited (pass :: later) s.2
      else main_loop L later (poll_loop L pass s)

/-- What `main` has done once the supplied passes are used up: it has returned
`code`, or it is still in its loop. -/
inductive Outcome
  | returned (code : Int) (pending : List (List SDL_Event)) (w : World)
  | running (w : World)
  deriving DecidableEq, Repr

/-- Lines 56-74. -/
def main (L : SDL) (passes : List (List SDL_Event)) : Outcome :=
  let r := init_ui L World.start
  if !r.1 then .returned (-1) passes r.2
  else
    match main_loop L passes (false, r.2) with
    | .exited pending w => .returned 0 pending (quit w)
    | .running w => .running w

/-! ## Vocabulary of the properties -/

/-- The pass holds a Quit event. -/
def has_quit (L : SDL) (pass : List SDL_Event) : Bool :=
  pass.any (fun event => decide (event.type = L.SDL_EVENT_QUIT))

/-- Every event of the list handed to `handle_event`, once each, in order. -/
def dispatch_all (L : SDL) (events : List SDL_Event) (w : World) : World :=
  events.foldl (fun w event => (handle_event L event w).2) w

/-- Window and render surface go together: the two globals are both NULL or
both set, and the two objects are both alive or both gone. -/
def paired (w : World) : Prop :=
  (w.window.isSome = w.renderer.isSome) ∧ (w.window_live = w.renderer_live)

instance (w : World) : Decidable (paired w) := by
  unfold paired; infer_instance

/-- The constants of the SDL3 release headers, with a library in which every
call succeeds and the clock counts calls. -/
def sdl3 : SDL :=
  { SDL_EVENT_QUIT := 0x100, SDL_EVENT_WINDOW_RESIZED := 0x206, SDL_EVENT_KEY_DOWN := 0x300,
    SDL_EVENT_KEY_UP := 0x301, SDL_EVENT_WINDOW_EXPOSED := 0x204, SDL_INIT_VIDEO := 0x20,
    SDL_WINDOW_RESIZABLE := 0x20, kinds_nodup := by decide,
    init_ok := true, create_ok := true, init_error := "video subsystem unavailable",
    create_error := "no display", new_window := 1, new_renderer := 2, ticks := fun n => 7 * n }

/-- As `sdl3`, but `SDL_Init` fails. -/
def sdl3_no_init : SDL := { sdl3 with init_ok := false }

/-- As `sdl3`, but `SDL_CreateWindowAndRenderer` fails. -/
def sdl3_no_window : SDL := { sdl3 with create_ok := false }

/-- A window event of the given kind and payload. -/
def window_event (type : Nat) (data1 data2 : Int) : SDL_Event :=
  { type := type, window := { data1 := data1, data2 := data2 },
    key := { which := 0, scancode := 0, key := 0, mod := 0, raw := 0, down := false,
             is_repeat := false } }

/-- A keyboard event of the given kind; the window view shows the words that
`which` and `scancode` occupy. -/
def key_event (type which scancode key : Nat) (down : Bool) : SDL_Event :=
  { type := type, window := { data1 := which, data2 := scancode },
    key := { which := which, scancode := scancode, key := key, mod := 0, raw := 0, down := down,
             is_repeat := false } }

/-- The state a loop result carries. -/
def Loop.world : Loop → World
  | .exited _ w => w
  | .running w => w

/-- The state an outcome of `main` carries. -/
def Outcome.world : Outcome → World
  | .returned _ _ w => w
  | .running w => w

/-- The scenario queue: one pass holding Exposed, KeyDown of the A key
(scancode 4, key code 0x61), Resized to 800 by 600, Quit. -/
def scenario : List (List SDL_Event) :=
  [[window_event 0x204 0 0, key_event 0x300 0 4 0x61 true, window_event 0x206 800 600,
    window_event 0x100 0 0]]

/-! ## Auxiliary facts -/

theorem SDL.kinds_ne (L : SDL) :
    L.SDL_EVENT_QUIT ≠ L.SDL_EVENT_WINDOW_RESIZED ∧ L.SDL_EVENT_QUIT ≠ L.SDL_EVENT_KEY_DOWN ∧
    L.SDL_EVENT_QUIT ≠ L.SDL_EVENT_KEY_UP ∧ L.SDL_EVENT_QUIT ≠ L.SDL_EVENT_WINDOW_EXPOSED ∧
    L.SDL_EVENT_WINDOW_RESIZED ≠ L.SDL_EVENT_KEY_DOWN ∧
    L.SDL_EVENT_WINDOW_RESIZED ≠ L.SDL_EVENT_KEY_UP ∧
    L.SDL_EVENT_WINDOW_RESIZED ≠ L.SDL_EVENT_WINDOW_EXPOSED ∧
    L.SDL_EVENT_KEY_DOWN ≠ L.SDL_EVENT_KEY_UP ∧
    L.SDL_EVENT_KEY_DOWN ≠ L.SDL_EVENT_WINDOW_EXPOSED ∧
    L.SDL_EVENT_KEY_UP ≠ L.SDL_EVENT_WINDOW_EXPOSED := by
  have h := L.kinds_nodup
  simp only [List.nodup_cons, List.mem_cons, List.mem_singleton, not_or] at h
  tauto

theorem emitted_emit (w : World) (es : List Effect) :
    emitted w { w with trace := w.trace ++ es } = es := by
  simp [emitted]

theorem dispatch_all_append (L : SDL) (xs ys : List SDL_Event) (w : World) :
    dispatch_all L (xs ++ ys) w = dispatch_all L ys (dispatch_all L xs w) := by
  simp [dispatch_all, List.foldl_append]

theorem poll_loop_eq (L : SDL) (pass : List SDL_Event) (s : Bool × World) :
    poll_loop L pass s = (s.1 || has_quit L pass, dispatch_all L pass s.2) := by
  induction pass generalizing s with
  | nil => simp [poll_loop, has_quit, dispatch_all]
  | cons event rest ih =>
    rw [poll_loop, ih]
    by_cases hq : event.type = L.SDL_EVENT_QUIT <;>
      simp [loop_body, has_quit, dispatch_all, hq]

theorem main_loop_done (L : SDL) (passes : List (List SDL_Event)) (w : World) :
    main_loop L passes (true, w) = Loop.exited passes w := by
  cases passes <;> simp [main_loop]

theorem main_loop_quit_pass (L : SDL) (p : List SDL_Event) (post : List (List SDL_Event))
    (w : World) (hp : has_quit L p = true) :
    main_loop L (p :: post) (false, w) = Loop.exited post (dispatch_all L p w) := by
  simp [main_loop, poll_loop_eq, hp, main_loop_done]

theorem main_loop_quiet_passes (L : SDL) (pre rest : List (List SDL_Event)) (w : World)
    (hpre : ∀ q ∈ pre, has_quit L q = false) :
    main_loop L (pre ++ rest) (false, w) = main_loop L rest (false, dispatch_all L pre.flatten w) := by
  induction pre generalizing w with
  | nil => simp [dispatch_all]
  | cons q qs ih =>
    have hq : has_quit L q = false := hpre q (List.mem_cons_self _ _)
    have hqs : ∀ r ∈ qs, has_quit L r = false := fun r hr => hpre r (List.mem_cons_of_mem _ hr)
    simp only [List.cons_append, main_loop, poll_loop_eq, hq, Bool.or_self, Bool.false_eq_true,
      if_false, List.flatten_cons, dispatch_all_append]
    exact ih _ hqs

theorem first_quit_pass (L : SDL) (passes : List (List SDL_Event))
    (h : ∃ p ∈ passes, has_quit L p = true) :
    ∃ pre p post, passes = pre ++ p :: post ∧ (∀ q ∈ pre, has_quit L q = false) ∧
      has_quit L p = true := by
  induction passes with
  | nil => obtain ⟨p, hp, _⟩ := h; cases hp
  | cons a rest ih =>
    by_cases ha : has_quit L a = true
    · exact ⟨[], a, rest, rfl, by simp, ha⟩
    · obtain ⟨p, hp, hpq⟩ := h
      have hmem : p ∈ rest := by
        rcases List.mem_cons.mp hp with rfl | hr
        · exact absurd hpq ha
        · exact hr
      obtain ⟨pre, p2, post, he, hpre, hp2⟩ := ih ⟨p, hmem, hpq⟩
      refine ⟨a :: pre, p2, post, by simp [he], ?_, hp2⟩
      intro q hq
      rcases List.mem_cons.mp hq with rfl | hr
      · simpa using ha
      · exact hpre q hr

theorem main_loop_exits (L : SDL) (pre : List (List SDL_Event)) (p : List SDL_Event)
    (post : List (List SDL_Event)) (w : World)
    (hpre : ∀ q ∈ pre, has_quit L q = false) (hp : has_quit L p = true) :
    main_loop L (pre ++ p :: post) (false, w)
      = Loop.exited post (dispatch_all L (pre.flatten ++ p) w) := by
  rw [main_loop_quiet_passes L pre (p :: post) w hpre, main_loop_quit_pass L p post _ hp,
    dispatch_all_append]

theorem handle_event_frame (L : SDL) (event : SDL_Event) (w : World) :
    (handle_event L event w).2.window = w.window ∧
    (handle_event L event w).2.renderer = w.renderer ∧
    (handle_event L event w).2.window_live = w.window_live ∧
    (handle_event L event w).2.renderer_live = w.renderer_live ∧
    (handle_event L event w).2.sdl_up = w.sdl_up := by
  unfold handle_event
  split_ifs <;>
    simp [draw, SDL_Log, SDL_GetTicks, SDL_SetRenderDrawColorFloat, SDL_RenderClear,
      SDL_RenderPresent, World.emit]

theorem paired_handle_event (L : SDL) (event : SDL_Event) (w : World) (h : paired w) :
    paired (handle_event L event w).2 := by
  obtain ⟨a, b, c, d, _⟩ := handle_event_frame L event w
  unfold paired at *
  rw [a, b, c, d]
  exact h

theorem paired_dispatch_all (L : SDL) (events : List SDL_Event) (w : World) (h : paired w) :
    paired (dispatch_all L events w) := by
  induction events generalizing w with
  | nil => simpa [dispatch_all] using h
  | cons event rest ih =>
    have e : dispatch_all L (event :: rest) w
        = dispatch_all L rest (handle_event L event w).2 := by
      simp [dispatch_all]
    rw [e]
    exact ih _ (paired_handle_event L event w h)

theorem paired_init_ui (L : SDL) (w : World) (h : paired w) : paired (init_ui L w).2 := by
  unfold paired at *
  unfold init_ui SDL_Init SDL_CreateWindowAndRenderer
  cases hi : L.init_ok <;> cases hc : L.create_ok <;>
    simp [SDL_Log, SDL_SetAppMetadata, World.emit, h.1, h.2]

theorem paired_quit (w : World) (h : paired w) : paired (quit w) := by
  unfold paired at *
  unfold quit SDL_Quit SDL_DestroyWindow
  cases hw : w.window <;> simp [World.emit, hw] at h ⊢ <;> exact h.1

theorem paired_main_loop (L : SDL) (passes : List (List SDL_Event)) (s : Bool × World)
    (h : paired s.2) : paired (main_loop L passes s).world := by
  induction passes generalizing s with
  | nil => unfold main_loop; split_ifs <;> simpa [Loop.world] using h
  | cons pass later ih =>
    unfold main_loop
    split_ifs
    · simpa [Loop.world] using h
    · apply ih
      rw [poll_loop_eq]
      exact paired_dispatch_all L pass s.2 h

/-! ## The properties -/

/-- C1: whenever some drain pass holds a Quit event, the loop of `main` leaves
right after the first such pass: the passes split as `pre ++ p :: post` with
no Quit in `pre` and a Quit in `p`; every event of `pre` and of `p` (those
behind the Quit included) went through `handle_event` once, in queue order,
and the passes of `post` were never polled. -/
theorem loop_exits_after_first_quit_pass (L : SDL) (passes : List (List SDL_Event)) (w : World)
    (h : ∃ p ∈ passes, has_quit L p = true) :
    ∃ pre p post, passes = pre ++ p :: post ∧ (∀ q ∈ pre, has_quit L q = false) ∧
      has_quit L p = true ∧
      main_loop L passes (false, w) = Loop.exited post (dispatch_all L (pre.flatten ++ p) w) := by
  obtain ⟨pre, p, post, he, hpre, hp⟩ := first_quit_pass L passes h
  exact ⟨pre, p, post, he, hpre, hp, he ▸ main_loop_exits L pre p post w hpre hp⟩

/-- C1, at a concrete queue: the pass `[Quit, KeyDown]` ends the loop, the key
event behind the Quit is still dispatched, the resize pass is never polled. -/
theorem loop_exits_after_first_quit_pass_witness :
    ∃ pre p post,
      [[], [window_event 0x204 0 0], [window_event 0x100 0 0, key_event 0x300 0 4 0x61 true],
        [window_event 0x206 800 600]] = pre ++ p :: post ∧
      (∀ q ∈ pre, has_quit sdl3 q = false) ∧ has_quit sdl3 p = true ∧
      main_loop sdl3 [[], [window_event 0x204 0 0],
          [window_event 0x100 0 0, key_event 0x300 0 4 0x61 true], [window_event 0x206 800 600]]
          (false, World.start)
        = Loop.exited post (dispatch_all sdl3 (pre.flatten ++ p) World.start) :=
  loop_exits_after_first_quit_pass sdl3 _ World.start
    ⟨[window_event 0x100 0 0, key_event 0x300 0 4 0x61 true], by simp, by decide⟩

/-- C2: an Exposed event handed to `handle_event` gives one render cycle and
nothing else, whatever the clock says: the calls recorded are the colour
setting with the same intensity `(double)(ticks % 2)` on the three channels
and full opacity, then the clear, then the present, each once, in that order;
none of them is a log line, and nothing but the clock-call count and the
trace changes. -/
theorem exposed_renders_once (L : SDL) (event : SDL_Event) (w : World)
    (h : event.type = L.SDL_EVENT_WINDOW_EXPOSED) :
    handle_event L event w =
      (true, { w with
        tick_calls := w.tick_calls + 2,
        trace := w.trace ++
          [Effect.SDL_SetRenderDrawColorFloat w.renderer
             (CFloat.ofUint64 (L.ticks (w.tick_calls + 1) % 2 ^ 64 % 2))
             (CFloat.ofUint64 (L.ticks (w.tick_calls + 1) % 2 ^ 64 % 2))
             (CFloat.ofUint64 (L.ticks (w.tick_calls + 1) % 2 ^ 64 % 2))
             CFloat.SDL_ALPHA_OPAQUE_FLOAT,
           Effect.SDL_RenderClear w.renderer,
           Effect.SDL_RenderPresent w.renderer] }) ∧
    emitted w (handle_event L event w).2 =
      [Effect.SDL_SetRenderDrawColorFloat w.renderer
         (CFloat.ofUint64 (L.ticks (w.tick_calls + 1) % 2 ^ 64 % 2))
         (CFloat.ofUint64 (L.ticks (w.tick_calls + 1) % 2 ^ 64 % 2))
         (CFloat.ofUint64 (L.ticks (w.tick_calls + 1) % 2 ^ 64 % 2))
         CFloat.SDL_ALPHA_OPAQUE_FLOAT,
       Effect.SDL_RenderClear w.renderer,
       Effect.SDL_RenderPresent w.renderer] ∧
    (∀ e ∈ emitted w (handle_event L event w).2, e.isLog = false) := by
  obtain ⟨_, _, _, _, _, _, h1, _, h2, h3⟩ := L.kinds_ne
  have e1 : L.SDL_EVENT_WINDOW_EXPOSED ≠ L.SDL_EVENT_WINDOW_RESIZED := fun e => h1 e.symm
  have e2 : L.SDL_EVENT_WINDOW_EXPOSED ≠ L.SDL_EVENT_KEY_DOWN := fun e => h2 e.symm
  have e3 : L.SDL_EVENT_WINDOW_EXPOSED ≠ L.SDL_EVENT_KEY_UP := fun e => h3 e.symm
  simp [handle_event, h, e1, e2, e3, draw, SDL_GetTicks, SDL_SetRenderDrawColorFloat,
    SDL_RenderClear, SDL_RenderPresent, World.emit, emitted, Effect.isLog]

/-- C2, at a concrete state: the clock of `sdl3` answers 7 to the second call,
so the colour is `(double) 1` on all three channels. -/
theorem exposed_renders_once_witness :
    emitted World.start (handle_event sdl3 (window_event 0x204 0 0) World.start).2 =
      [Effect.SDL_SetRenderDrawColorFloat none (CFloat.ofUint64 1) (CFloat.ofUint64 1)
         (CFloat.ofUint64 1) CFloat.SDL_ALPHA_OPAQUE_FLOAT,
       Effect.SDL_RenderClear none, Effect.SDL_RenderPresent none] :=
  (exposed_renders_once sdl3 (window_event 0x204 0 0) World.start rfl).2.1

/-- C3: an event whose kind is none of Quit, Window resized, Key pressed, Key
released, Surface exposed, run through the loop body, records one call, the
catch-all log line with the raw event kind as its argument; that call is no
render, and `done`, the two globals and the library state stay as they were. -/
theorem unknown_kind_logged_once (L : SDL) (event : SDL_Event) (done : Bool) (w : World)
    (hq : event.type ≠ L.SDL_EVENT_QUIT) (hr : event.type ≠ L.SDL_EVENT_WINDOW_RESIZED)
    (hd : event.type ≠ L.SDL_EVENT_KEY_DOWN) (hu : event.type ≠ L.SDL_EVENT_KEY_UP)
    (he : event.type ≠ L.SDL_EVENT_WINDOW_EXPOSED) :
    loop_body L event (done, w) =
      (done, { w with
        trace := w.trace ++ [Effect.SDL_Log "unhandled event: %d" [LogArg.d event.type]] }) ∧
    emitted w (loop_body L event (done, w)).2 =
      [Effect.SDL_Log "unhandled event: %d" [LogArg.d event.type]] ∧
    (∀ e ∈ emitted w (loop_body L event (done, w)).2, e.isRender = false) := by
  simp [loop_body, handle_event, hq, hr, hd, hu, he, SDL_Log, World.emit, emitted,
    Effect.isRender]

/-- C3, at a concrete event: kind 0x400 (mouse motion in SDL3) is not in the
table. -/
theorem unknown_kind_logged_once_witness :
    loop_body sdl3 (window_event 0x400 0 0) (false, World.start) =
      (false, { World.start with
        trace := [Effect.SDL_Log "unhandled event: %d" [LogArg.d 0x400]] }) :=
  (unknown_kind_logged_once sdl3 (window_event 0x400 0 0) false World.start
    (by decide) (by decide) (by decide) (by decide) (by decide)).1

/-- C4: a Window-resized event with payload `(data1, data2)` records one
call, the resize log line with the two payload values, hence no colour
setting, clear or present; and for any event at all, a render call is
recorded during its dispatch exactly when the event is an Exposed event. -/
theorem resize_logs_only_exposed_renders (L : SDL) (event : SDL_Event) (w : World)
    (h : event.type = L.SDL_EVENT_WINDOW_RESIZED) :
    handle_event L event w =
      (true, { w with trace := w.trace ++
        [Effect.SDL_Log "resize (%d, %d)"
          [LogArg.d event.window.data1, LogArg.d event.window.data2]] }) ∧
    emitted w (handle_event L event w).2 =
      [Effect.SDL_Log "resize (%d, %d)"
        [LogArg.d event.window.data1, LogArg.d event.window.data2]] ∧
    (∀ (any : SDL_Event) (v : World),
      (∃ e ∈ emitted v (handle_event L any v).2, e.isRender = true) ↔
        any.type = L.SDL_EVENT_WINDOW_EXPOSED) := by
  obtain ⟨_, _, _, _, _, _, h1, _, h2, h3⟩ := L.kinds_ne
  refine ⟨?_, ?_, ?_⟩
  · simp [handle_event, h, SDL_Log, World.emit]
  · simp [handle_event, h, SDL_Log, World.emit, emitted]
  · intro any v
    unfold handle_event
    split_ifs with a b c d
    · simp [SDL_Log, World.emit, emitted, Effect.isRender, a, h1]
    · simp [SDL_Log, World.emit, emitted, Effect.isRender, b, h2]
    · simp [SDL_Log, World.emit, emitted, Effect.isRender, c, h3]
    · simp [draw, SDL_GetTicks, SDL_SetRenderDrawColorFloat, SDL_RenderClear,
        SDL_RenderPresent, World.emit, emitted, Effect.isRender, d]
    · simp [SDL_Log, World.emit, emitted, Effect.isRender, d]

/-- C4, at a concrete event: a resize to 800 by 600. -/
theorem resize_logs_only_exposed_renders_witness :
    emitted World.start (handle_event sdl3 (window_event 0x206 800 600) World.start).2 =
      [Effect.SDL_Log "resize (%d, %d)" [LogArg.d 800, LogArg.d 600]] :=
  (resize_logs_only_exposed_renders sdl3 (window_event 0x206 800 600) World.start rfl).2.1

/-- C6: if `init_ui` fails, `main` returns the nonzero code -1 at once: the
queue is handed back untouched (no event polled) and the trace is the one
`init_ui` left, which holds no render call, no `SDL_DestroyWindow` and no
`SDL_Quit`.  If `init_ui` succeeds and some pass holds a Quit event, the loop
leaves, `quit` runs on the loop's final state (its two calls close the trace)
and `main` returns 0. -/
theorem main_exit_codes (L : SDL) (passes : List (List SDL_Event)) :
    ((init_ui L World.start).1 = false →
      (∃ code, code ≠ 0 ∧
        main L passes = Outcome.returned code passes (init_ui L World.start).2) ∧
      (∀ e ∈ (main L passes).world.trace,
        e.isRender = false ∧ e ≠ Effect.SDL_Quit ∧ ∀ h, e ≠ Effect.SDL_DestroyWindow h)) ∧
    ((init_ui L World.start).1 = true → (∃ p ∈ passes, has_quit L p = true) →
      ∃ pending w,
        main_loop L passes (false, (init_ui L World.start).2) = Loop.exited pending w ∧
        main L passes = Outcome.returned 0 pending (quit w) ∧
        (quit w).trace = w.trace ++ [Effect.SDL_DestroyWindow w.window, Effect.SDL_Quit] ∧
        (quit w).sdl_up = false) := by
  constructor
  · intro hf
    have hm : main L passes = Outcome.returned (-1) passes (init_ui L World.start).2 := by
      simp [main, hf]
    refine ⟨⟨-1, by decide, hm⟩, ?_⟩
    rw [hm]
    revert hf
    unfold init_ui SDL_Init SDL_CreateWindowAndRenderer
    cases L.init_ok <;> cases L.create_ok <;>
      simp [Outcome.world, SDL_Log, SDL_SetAppMetadata, World.emit, World.start, Effect.isRender]
  · intro hs hq
    obtain ⟨pre, p, post, he, hpre, hp⟩ := first_quit_pass L passes hq
    have hl := main_loop_exits L pre p post (init_ui L World.start).2 hpre hp
    rw [← he] at hl
    refine ⟨post, _, hl, ?_, ?_, ?_⟩
    · simp [main, hs, hl]
    · unfold quit SDL_Quit SDL_DestroyWindow
      cases w : (dispatch_all L (pre.flatten ++ p) (init_ui L World.start).2).window <;>
        simp [World.emit, w]
    · simp [quit, SDL_Quit]

/-- C6, both ways: when `SDL_Init` fails `main` returns a nonzero code with the
queue untouched; on the scenario queue with a working library it returns 0
after `quit`. -/
theorem main_exit_codes_witness :
    (∃ code, code ≠ 0 ∧
      main sdl3_no_init scenario =
        Outcome.returned code scenario (init_ui sdl3_no_init World.start).2) ∧
    (∃ pending w,
      main_loop sdl3 scenario (false, (init_ui sdl3 World.start).2) = Loop.exited pending w ∧
      main sdl3 scenario = Outcome.returned 0 pending (quit w) ∧
      (quit w).trace = w.trace ++ [Effect.SDL_DestroyWindow w.window, Effect.SDL_Quit] ∧
      (quit w).sdl_up = false) :=
  ⟨((main_exit_codes sdl3_no_init scenario).1 (by decide)).1,
   (main_exit_codes sdl3 scenario).2 rfl ⟨_, List.mem_singleton.mpr rfl, by decide⟩⟩

/-- C7, at the failing input: `SDL_Init` succeeds and
`SDL_CreateWindowAndRenderer` fails.  `init_ui` returns `false` after one
diagnostic line, the library is still up, and no `SDL_Quit` was issued;
`main` then returns -1 in that same state. -/
theorem init_ui_window_failure_leaves_sdl_up :
    init_ui sdl3_no_window World.start =
      (false,
        { window := none, renderer := none, sdl_up := true, window_live := false,
          renderer_live := false, last_error := "no display", tick_calls := 0,
          trace :=
            [Effect.SDL_SetAppMetadata "Hero" "1.0" "supply.same.handmade",
             Effect.SDL_Init 0x20,
             Effect.SDL_CreateWindowAndRenderer "Hero" 640 480 0x20,
             Effect.SDL_Log "Couldn\x27t create window/renderer: %s"
               [LogArg.s "no display"]] }) ∧
    (main sdl3_no_window []).world.sdl_up = true ∧
    Effect.SDL_Quit ∉ (main sdl3_no_window []).world.trace := by
  refine ⟨rfl, rfl, ?_⟩
  simp [main, init_ui, SDL_Init, SDL_CreateWindowAndRenderer, SDL_SetAppMetadata, SDL_Log,
    World.emit, World.start, sdl3_no_window, sdl3, Outcome.world]

/-- C8, at the failing input: a key-down and a key-up event of the A key
(scancode 4, key code 0x61).  Each gives one log line, and its argument is
`event->window.data2`, the word of the window member that overlays the
scan code: 4 both times, neither the key code nor the pressed/released
state, which differs between the two events. -/
theorem key_log_reads_window_member :
    (key_event 0x300 0 4 0x61 true).key_overlay ∧
    (key_event 0x301 0 4 0x61 false).key_overlay ∧
    emitted World.start (handle_event sdl3 (key_event 0x300 0 4 0x61 true) World.start).2 =
      [Effect.SDL_Log "key down: %d" [LogArg.d 4]] ∧
    emitted World.start (handle_event sdl3 (key_event 0x301 0 4 0x61 false) World.start).2 =
      [Effect.SDL_Log "key up: %d" [LogArg.d 4]] ∧
    (key_event 0x300 0 4 0x61 true).key.key ≠ 4 ∧
    (key_event 0x300 0 4 0x61 true).key.down ≠ (key_event 0x301 0 4 0x61 false).key.down :=
  ⟨by decide, by decide, rfl, rfl, by decide, by decide⟩

/-- C10: window and render surface go together throughout.  They are paired
at process start, and `init_ui` (whatever the library answers), every
`handle_event`, and `quit` keep them paired; so they are paired in every
state `main` can be found in, returned or still looping. -/
theorem window_and_surface_paired (L : SDL) :
    paired World.start ∧
    paired (init_ui L World.start).2 ∧
    (∀ w, paired w → paired (init_ui L w).2) ∧
    (∀ (event : SDL_Event) (w : World), paired w → paired (handle_event L event w).2) ∧
    (∀ w, paired w → paired (quit w)) ∧
    (∀ passes, paired (main L passes).world) := by
  have h0 : paired World.start := by decide
  have hi := paired_init_ui L World.start h0
  refine ⟨h0, hi, paired_init_ui L, paired_handle_event L, paired_quit, ?_⟩
  intro passes
  cases hf : (init_ui L World.start).1
  · have hm : main L passes = Outcome.returned (-1) passes (init_ui L World.start).2 := by
      simp [main, hf]
    rw [hm]
    simpa [Outcome.world] using hi
  · have hl := paired_main_loop L passes (false, (init_ui L World.start).2) hi
    cases hm : main_loop L passes (false, (init_ui L World.start).2) with
    | exited pending w =>
      have hr : main L passes = Outcome.returned 0 pending (quit w) := by
        simp [main, hf, hm]
      rw [hm] at hl
      rw [hr]
      simpa [Outcome.world] using paired_quit w (by simpa [Loop.world] using hl)
    | running w =>
      have hr : main L passes = Outcome.running w := by
        simp [main, hf, hm]
      rw [hm] at hl
      rw [hr]
      simpa [Outcome.world, Loop.world] using hl

/-- C10, at the start state when window creation fails. -/
theorem window_and_surface_paired_witness :
    paired World.start ∧ paired (init_ui sdl3_no_window World.start).2 :=
  ⟨by decide, (window_and_surface_paired sdl3_no_window).2.2.1 World.start (by decide)⟩

end Hmh
